import Mathlib

/-!
# Verification of the stackable krustlet pod state machine and kubelet core

Shallow embedding of the relevant parts of the `stackable_krustlet`
repository: the Stackable provider's pod state machine
(`crates/stackable-provider/src/states/*.rs`), the package and repository
lookup (`crates/stackable-provider/src/repository/*.rs`), the provider
construction and node hook (`crates/stackable-provider/src/lib.rs`), and
the kubelet's pod informer and shutdown flag
(`crates/kubelet/src/kubelet.rs`).

Effectful calls (Kubernetes API lookups, filesystem access, process
polling, timers) are embedded by passing the outcome of each effect
explicitly as an environment value; a Rust `panic!`/`unwrap` failure is
embedded as `Option.none`.
-/

namespace StackableKrustlet

/-! ## Data model: packages, errors, pods -/

/-- `Package` from `repository/package.rs`: a product name and a version. -/
structure Package where
  product : String
  version : String
deriving DecidableEq, Repr

/-- Directory name of a package, `{product}-{version}`
(as `get_directory_name` in `repository/stackablerepository.rs`,
used on `Package` by `states/install_package.rs`). -/
def Package.get_directory_name (p : Package) : String :=
  p.product ++ "-" ++ p.version

/-- Archive file name of a package, `{product}-{version}.tar.gz`
(as `get_file_name` in `repository/stackablerepository.rs`). -/
def Package.get_file_name (p : Package) : String :=
  p.get_directory_name ++ ".tar.gz"

/-- The variants of `StackableError` (`error.rs`) that the embedded code
constructs or matches on. -/
inductive StackableError where
  | PodValidationError (msg : String)
  | PackageParseError (msg : String)
  | CrdMissing (missing_crds : List String)
  | KubeError (msg : String)
deriving DecidableEq, Repr

/-- An OCI image reference as consumed by `Package::try_from`
(`oci_distribution::Reference`): the fields the code reads are
`repository()` and `tag()`. -/
structure Reference where
  repository : String
  tag : Option String
deriving DecidableEq, Repr

/-- A container of a pod: the code only reads `image()`, which in the
source returns `Result<Option<Reference>, _>`. -/
structure Container where
  image : Except String (Option Reference)

/-- A pod snapshot: the state machine code only reads `containers()`. -/
structure Pod where
  containers : List Container

/-- `Phase` of a published pod status (`kubelet::state::prelude`). -/
inductive Phase where
  | Pending
  | Running
  | Succeeded
  | Failed
deriving DecidableEq, Repr

/-- `make_status(phase, msg)` from `kubelet::state::prelude`, embedded as
the pair of phase and message that the produced JSON carries. -/
def make_status (phase : Phase) (msg : String) : Phase × String :=
  (phase, msg)

/-! ## Package parsing (`repository/package.rs`)

`Package::try_from(value: Reference)` does
`Ok(Package { product: value.repository(), version: value.tag().unwrap() })`.
The `unwrap` panics when the reference has no tag; a panic is embedded as
`none`, and a normal return as `some` of the `Except` result. -/

/-- `Package::try_from` on a `Reference`. `none` is the `unwrap` panic. -/
def Package.tryFrom (value : Reference) : Option (Except StackableError Package) :=
  match value.tag with
  | some t => some (Except.ok { product := value.repository, version := t })
  | none => none

/-! ## The Downloading state (`states/download_package.rs`) -/

/-- `Downloading::get_package`: validates that the containers list has
exactly one element, then parses the single container's image reference.
`none` is a panic propagated from `Package::try_from`. -/
def Downloading.get_package (pod : Pod) : Option (Except StackableError Package) :=
  if pod.containers.length ≠ 1 then
    some (Except.error (StackableError.PodValidationError
      "Size of containers list in PodSpec has to be exactly 1"))
  else
    match pod.containers with
    | c :: _ =>
      match c.image with
      | Except.ok (some reference) => Package.tryFrom reference
      | _ => some (Except.error (StackableError.PodValidationError
          "Unable to get package reference from pod"))
    | [] => none

/-! ## State machine: tags, transitions, pod state, environment

The provider's states under `states/` each derive `TransitionTo` with a
`#[transition_to(...)]` attribute listing their declared successors, and
their `next` methods return a `Transition<PodState>`. -/

/-- Tags for the states of the Stackable provider's state machine. States
whose own modules are not among the sources (`CreatingService`,
`SetupFailed`, `Stopping`, `Starting`) appear only as declared or actual
transition targets. -/
inductive StateTag where
  | Downloading
  | DownloadingBackoff
  | Installing
  | CreatingConfig
  | CreatingService
  | SetupFailed
  | Running
  | Stopping
  | Starting
  | Stopped
  | Failed
  | Terminated
deriving DecidableEq, Repr

/-- The declared successor set of each state, from its
`#[transition_to(...)]` attribute. `Terminated` derives no `TransitionTo`
and declares no successors. States whose modules are not among the sources
are given the empty set (they are never stepped in this embedding). -/
def transition_to : StateTag → List StateTag
  | StateTag.Downloading => [StateTag.Installing, StateTag.DownloadingBackoff]
  | StateTag.DownloadingBackoff => [StateTag.Downloading]
  | StateTag.Installing => [StateTag.CreatingConfig, StateTag.SetupFailed]
  | StateTag.CreatingConfig => [StateTag.CreatingService, StateTag.SetupFailed]
  | StateTag.Running => [StateTag.Stopping, StateTag.Failed, StateTag.Running, StateTag.Installing]
  | StateTag.Stopped => [StateTag.Starting]
  | StateTag.Failed => [StateTag.Installing]
  | _ => []

/-- A successor state value as constructed at a `Transition::next` call
site, with the data that call site passes. (`Installing`'s fields are
dropped here: the call in `running.rs` fills them from the pod state, and
the call in `download_package.rs` names the type bare; no claim depends
on them.) -/
inductive NextState where
  | installing
  | downloadingBackoff (package : Package)
  | downloading
  | creatingConfig (target_directory : Option String)
  | creatingService
  | failed (message : String)
  | starting
deriving DecidableEq, Repr

/-- The tag of the state a `NextState` value constructs. -/
def NextState.tag : NextState → StateTag
  | NextState.installing => StateTag.Installing
  | NextState.downloadingBackoff _ => StateTag.DownloadingBackoff
  | NextState.downloading => StateTag.Downloading
  | NextState.creatingConfig _ => StateTag.CreatingConfig
  | NextState.creatingService => StateTag.CreatingService
  | NextState.failed _ => StateTag.Failed
  | NextState.starting => StateTag.Starting

/-- `Transition<PodState>` from the kubelet state module:
`Next(boxed state)` or `Complete(Result<(), Error>)`. -/
inductive Transition where
  | next (target : NextState)
  | completeOk
  | completeErr (e : StackableError)
deriving DecidableEq, Repr

/-- Modelled from the spec: `kubelet::backoff::ExponentialBackoffStrategy`
(the kubelet crate's backoff module is not among the sources). The spec
fixes only that retries follow an exponential backoff, so the strategy is
embedded as the count of waits taken so far; `wait` advances the count and
yields the duration waited, growing exponentially with the count. -/
structure ExponentialBackoffStrategy where
  waitsTaken : Nat
deriving DecidableEq, Repr

/-- One `wait()` call: the advanced strategy and the duration waited. -/
def ExponentialBackoffStrategy.wait (s : ExponentialBackoffStrategy) :
    ExponentialBackoffStrategy × Nat :=
  ({ waitsTaken := s.waitsTaken + 1 }, 2 ^ s.waitsTaken)

/-- The per-pod `PodState` (`stackable-provider/src/lib.rs`), with the
fields the embedded states read (the directories and package fields are
read by `running.rs` and `create_config.rs`; the Kubernetes client is part
of the effect environment instead). -/
structure PodState where
  parcel_directory : String
  download_directory : String
  config_directory : String
  package : Package
  package_download_backoff_strategy : ExponentialBackoffStrategy

/-- One iteration event of `Running::next`'s select loop: either the
`pod_changed` notifier fires, or the 1 s timer expires and
`handle.try_wait()` is consulted (`still_running` is its `Ok(None)` case;
any other result is the process having died). -/
inductive RunEvent where
  | podChanged
  | timerTick (still_running : Bool)

/-- The outcome of each effectful call the embedded states make:
the repository lookup (`find_repository` yields the providing repository's
name if any), filesystem checks and archive operations
(`install_package.rs`), and the schedule of `Running`'s select loop. -/
structure Env where
  find_repository : Package → Except StackableError (Option String)
  path_exists : String → Bool
  open_archive : String → Except StackableError Unit
  unpack_archive : String → String → Except StackableError Unit
  running_events : List RunEvent

/-! ## The states' `next` methods -/

/-- `Downloading::next` (`states/download_package.rs`). On a package-parse
error it only logs (the `fail_fatal!(e)` call is commented out in the
source) and falls through, like the repository-found case, to
`Transition::next(self, Installing)`. `none` is a propagated panic. -/
def Downloading.next (env : Env) (pod_state : PodState) (pod : Pod) :
    Option (Transition × PodState) :=
  match Downloading.get_package pod with
  | none => none
  | some (Except.ok package) =>
    match env.find_repository package with
    | Except.ok (some _) =>
      some (Transition.next NextState.installing, pod_state)
    | Except.ok none =>
      some (Transition.next (NextState.downloadingBackoff package), pod_state)
    | Except.error _ =>
      some (Transition.next (NextState.downloadingBackoff package), pod_state)
  | some (Except.error _) =>
    some (Transition.next NextState.installing, pod_state)

/-- `DownloadingBackoff::next` (`states/download_package_backoff.rs`):
waits on the pod state's backoff strategy, then transitions to
`Downloading`. -/
def DownloadingBackoff.next (package : Package) (pod_state : PodState) :
    Transition × PodState :=
  let waited := pod_state.package_download_backoff_strategy.wait
  (Transition.next NextState.downloading,
   { pod_state with package_download_backoff_strategy := waited.fst })

/-- The `Installing` state's own fields (`states/install_package.rs`). -/
structure Installing where
  download_directory : String
  parcel_directory : String
  package : Package

/-- `Installing::package_installed`: does the package's directory under
the parcel directory exist. -/
def Installing.package_installed (env : Env) (s : Installing) (package : Package) : Bool :=
  env.path_exists (s.parcel_directory ++ "/" ++ package.get_directory_name)

/-- `Installing::install_package`: open the downloaded archive
(`File::open`, `?`-propagated) and unpack it into the parcel directory
(`archive.unpack`, `?`-propagated). -/
def Installing.install_package (env : Env) (s : Installing) (package : Package) :
    Except StackableError Unit := do
  let archive_path := s.download_directory ++ "/" ++ package.get_file_name
  let _ ← env.open_archive archive_path
  env.unpack_archive archive_path (s.parcel_directory ++ "/" ++ package.get_directory_name)

/-- `Installing::next`: if the package is already installed, transition to
`CreatingConfig { target_directory: None }`; otherwise call
`install_package` — its `Result` is discarded — and fall through to the
same transition. -/
def Installing.next (env : Env) (s : Installing) (pod_state : PodState) :
    Transition × PodState :=
  let package := s.package
  if Installing.package_installed env s package then
    (Transition.next (NextState.creatingConfig none), pod_state)
  else
    let _ := Installing.install_package env s package
    (Transition.next (NextState.creatingConfig none), pod_state)

/-- Modelled from the spec: the `fail_fatal!` macro (defined in the
crate's `error.rs`, which is not among the sources). Per the spec's error
handling design, a pod-scoped validation error is "surfaced as
`Complete(Err)` from a state". -/
def fail_fatal (e : StackableError) : Transition :=
  Transition.completeErr e

/-- `CreatingConfig::next` (`states/create_config.rs`): rejects pods whose
containers list is not exactly one element via `fail_fatal!`, otherwise
applies config maps (those effects do not alter the returned transition:
retrieval failures are skipped by `if let Ok`, and `apply_config_map`'s
result is discarded) and transitions to `CreatingService`. -/
def CreatingConfig.next (pod_state : PodState) (pod : Pod) : Transition × PodState :=
  if pod.containers.length ≠ 1 then
    (fail_fatal (StackableError.PodValidationError
      "Only pods containing exactly one container element are supported!"), pod_state)
  else
    (Transition.next NextState.creatingService, pod_state)

/-- The select loop of `Running::next`: on a `pod_changed` notification it
breaks and falls through to `Transition::next(self, Installing {...})`; on
a timer tick it polls the child process, continuing while `try_wait()`
returns `Ok(None)` and otherwise transitioning to
`Failed { message: "process died" }`. `none` is the loop never exiting
within the given schedule. -/
def Running.run_loop : List RunEvent → Option Transition
  | [] => none
  | RunEvent.podChanged :: _ =>
    some (Transition.next NextState.installing)
  | RunEvent.timerTick still_running :: rest =>
    if still_running then Running.run_loop rest
    else some (Transition.next (NextState.failed "process died"))

/-- `Running::next` (`states/running.rs`): takes the child process handle
out of the state (`unwrap` panics — `none` — when it is absent), drains
pending notifications, then runs the select loop. -/
def Running.next (env : Env) (process_handle : Option Unit) (pod_state : PodState) :
    Option (Transition × PodState) :=
  match process_handle with
  | none => none
  | some _ =>
    match Running.run_loop env.running_events with
    | none => none
    | some t => some (t, pod_state)

/-- `Stopped::next` (`states/stopped.rs`): sleeps, then transitions to
`Starting`. -/
def Stopped.next (pod_state : PodState) : Transition × PodState :=
  (Transition.next NextState.starting, pod_state)

/-- `Failed::next` (`states/failed.rs`): prints "failed" and transitions
to `Installing`, ignoring the carried message. -/
def Failed.next (message : String) (pod_state : PodState) : Transition × PodState :=
  (Transition.next NextState.installing, pod_state)

/-- `Terminated::next` (`states/terminated.rs`): prints "terminated" and
completes with `Ok(())`. -/
def Terminated.next (message : String) (pod_state : PodState) : Transition × PodState :=
  (Transition.completeOk, pod_state)

/-! ## The states' `json_status` methods -/

/-- `Downloading::json_status`. -/
def Downloading.json_status : Phase × String :=
  make_status Phase.Pending "status:initializing"

/-- `DownloadingBackoff::json_status`. -/
def DownloadingBackoff.json_status : Phase × String :=
  make_status Phase.Pending "status:running"

/-- `Installing::json_status`. -/
def Installing.json_status : Phase × String :=
  make_status Phase.Pending "status:initializing"

/-- `CreatingConfig::json_status`. -/
def CreatingConfig.json_status : Phase × String :=
  make_status Phase.Pending "status:initializing"

/-- `Running::json_status`. -/
def Running.json_status : Phase × String :=
  make_status Phase.Running "status:running"

/-- `Stopped::json_status`. -/
def Stopped.json_status : Phase × String :=
  make_status Phase.Pending "status:running"

/-- `Failed::json_status`: phase `Pending` with the state's message. -/
def Failed.json_status (message : String) : Phase × String :=
  make_status Phase.Pending message

/-- `Terminated::json_status`: phase `Succeeded` with the state's
message. -/
def Terminated.json_status (message : String) : Phase × String :=
  make_status Phase.Succeeded message

/-! ## Uniform stepping over the states whose modules are in the sources -/

/-- A state object of the provider's machine: the states whose `next`
methods are among the sources, with the data they carry. -/
inductive StateObj where
  | downloading
  | downloadingBackoff (package : Package)
  | installing (s : Installing)
  | creatingConfig (target_directory : Option String)
  | running (process_handle : Option Unit)
  | stopped
  | failed (message : String)
  | terminated (message : String)

/-- The tag of a state object. -/
def StateObj.tag : StateObj → StateTag
  | StateObj.downloading => StateTag.Downloading
  | StateObj.downloadingBackoff _ => StateTag.DownloadingBackoff
  | StateObj.installing _ => StateTag.Installing
  | StateObj.creatingConfig _ => StateTag.CreatingConfig
  | StateObj.running _ => StateTag.Running
  | StateObj.stopped => StateTag.Stopped
  | StateObj.failed _ => StateTag.Failed
  | StateObj.terminated _ => StateTag.Terminated

/-- One step of the state machine: dispatch to the state's `next` method.
`none` is a panic or divergence inside `next`. -/
def StateObj.step (env : Env) (s : StateObj) (pod_state : PodState) (pod : Pod) :
    Option (Transition × PodState) :=
  match s with
  | StateObj.downloading => Downloading.next env pod_state pod
  | StateObj.downloadingBackoff package => some (DownloadingBackoff.next package pod_state)
  | StateObj.installing i => some (Installing.next env i pod_state)
  | StateObj.creatingConfig _ => some (CreatingConfig.next pod_state pod)
  | StateObj.running h => Running.next env h pod_state
  | StateObj.stopped => some (Stopped.next pod_state)
  | StateObj.failed m => some (Failed.next m pod_state)
  | StateObj.terminated m => some (Terminated.next m pod_state)

/-! ## Kubelet pod informer (`crates/kubelet/src/kubelet.rs`) -/

/-- `kube_runtime::watcher::Event`, as matched by `start_pod_informer`. -/
inductive WatchEvent where
  | applied (pod : Pod)
  | deleted (pod : Pod)
  | restarted (pods : List Pod)

/-- `matches!(event, kube_runtime::watcher::Event::Applied(_))`. -/
def WatchEvent.isApplied : WatchEvent → Bool
  | WatchEvent.applied _ => true
  | _ => false

/-- What `start_pod_informer` does with one successfully received event:
drop it (warn and `continue`), hand it to `queue.resync`, or hand it to
`queue.enqueue`. -/
inductive InformerAction where
  | dropped
  | resync (pods : List Pod)
  | enqueue (event : WatchEvent)

/-- The per-event body of `start_pod_informer`'s loop: an `Applied` event
is dropped when the shutdown flag reads true; otherwise a `Restarted`
event goes to `resync` and every other event goes to `enqueue`. -/
def handle_pod_event (signal : Bool) (event : WatchEvent) : InformerAction :=
  if event.isApplied && signal then
    InformerAction.dropped
  else
    match event with
    | WatchEvent.restarted pods => InformerAction.resync pods
    | e => InformerAction.enqueue e

/-! ## The shutdown flag (`crates/kubelet/src/kubelet.rs`)

`Kubelet::start` creates `signal = Arc::new(AtomicBool::new(false))`.
The only stores to it in the sources are `signal.store(true, Relaxed)` in
`start_signal_task` (after SIGINT) and `signal.store(true, Relaxed)` in
the supervised-services block (after `tokio::select!` over the four
service tasks returns). `start_pod_informer` and `start_signal_handler`
only `load` it. -/

/-- The two store sites to the shutdown flag. -/
inductive SignalWrite where
  | sigint
  | serviceCompleted

/-- The value each store site writes: both write `true`. -/
def SignalWrite.value : SignalWrite → Bool
  | SignalWrite.sigint => true
  | SignalWrite.serviceCompleted => true

/-- An access to the shutdown flag: one of the two stores, or a load
(which does not modify it). -/
inductive SignalStep where
  | write (w : SignalWrite)
  | load

/-- Effect of one access on the flag. -/
def signal_step (flag : Bool) : SignalStep → Bool
  | SignalStep.write w => w.value
  | SignalStep.load => flag

/-- The flag after a sequence of accesses. -/
def signal_run (flag : Bool) (steps : List SignalStep) : Bool :=
  steps.foldl signal_step flag

/-- The flag's initial value, `AtomicBool::new(false)`. -/
def signal_initial : Bool := false

/-! ## Provider construction (`crates/stackable-provider/src/lib.rs`)

The Kubernetes lookup `crds.get(crd)` is embedded as a function from CRD
name to its retrieval outcome. -/

/-- The `CRDS` constant. -/
def CRDS : List String := ["repositories.stable.stackable.de"]

/-- `StackableProvider::check_crds`: walk `CRDS`, pushing every name whose
retrieval returns `Err` onto the `missing_crds` list. -/
def check_crds (get_crd : String → Except StackableError Unit) : List String :=
  CRDS.foldl
    (fun missing_crds crd =>
      match get_crd crd with
      | Except.error _ => missing_crds ++ [crd]
      | Except.ok _ => missing_crds)
    []

/-- `StackableProvider::new`: build the provider, and return it as `Ok`
when `check_crds` found nothing missing, otherwise
`Err(CrdMissing { missing_crds })`. The provider value itself carries no
data this verification needs, so the `Ok` payload is `()`. -/
def StackableProvider.new (get_crd : String → Except StackableError Unit) :
    Except StackableError Unit :=
  let missing_crds := check_crds get_crd
  if missing_crds.isEmpty then Except.ok ()
  else Except.error (StackableError.CrdMissing missing_crds)

/-! ## Node customization (`crates/stackable-provider/src/lib.rs`) -/

/-- A node taint as recorded by the builder. -/
structure Taint where
  effect : String
  key : String
  value : String
deriving DecidableEq, Repr

/-- Modelled from the spec: `kubelet::node::Builder` (the kubelet crate's
node module is not among the sources). Per the spec the builder
accumulates the node object's fields, among them
`status.nodeInfo.architecture` and the taints
`kubernetes.io/arch=<ARCH>:NoSchedule` / `:NoExecute`; so
`set_architecture` sets the architecture field and `add_taint` appends
one taint with the given effect, key and value. -/
structure Builder where
  architecture : String
  taints : List Taint
deriving DecidableEq, Repr

/-- `Builder::set_architecture`. -/
def Builder.set_architecture (b : Builder) (arch : String) : Builder :=
  { b with architecture := arch }

/-- `Builder::add_taint`, appending one taint. -/
def Builder.add_taint (b : Builder) (effect key value : String) : Builder :=
  { b with taints := b.taints ++ [{ effect := effect, key := key, value := value }] }

/-- `Provider::ARCH` for the Stackable provider. -/
def ARCH : String := "stackable-linux"

/-- `StackableProvider::node`: set the architecture to `ARCH`, add the
`NoSchedule` and `NoExecute` taints on key `kubernetes.io/arch` with value
`ARCH`, and return `Ok(())`. -/
def StackableProvider.node (builder : Builder) : Builder × Except String Unit :=
  let b1 := builder.set_architecture ARCH
  let b2 := b1.add_taint "NoSchedule" "kubernetes.io/arch" ARCH
  let b3 := b2.add_taint "NoExecute" "kubernetes.io/arch" ARCH
  (b3, Except.ok ())

/-! ## Shared concrete values and helper lemmas -/

/-- A pod with an empty containers list. -/
def pod_zero_containers : Pod := { containers := [] }

/-- A pod with exactly one container whose image is
`oci://pkg/foo:999`. -/
def pod_foo999 : Pod :=
  { containers := [{ image := Except.ok (some { repository := "pkg/foo", tag := some "999" }) }] }

/-- An environment in which no repository provides any package, nothing is
installed, archive operations succeed, and the running loop sees one
`pod_changed` notification. -/
def env_no_repo : Env :=
  { find_repository := fun _ => Except.ok none
    path_exists := fun _ => false
    open_archive := fun _ => Except.ok ()
    unpack_archive := fun _ _ => Except.ok ()
    running_events := [RunEvent.podChanged] }

/-- A concrete pod state. -/
def pod_state_0 : PodState :=
  { parcel_directory := "/work/parcels"
    download_directory := "/work/download"
    config_directory := "/work/config"
    package := { product := "pkg/foo", version := "999" }
    package_download_backoff_strategy := { waitsTaken := 0 } }

/-- Every transition the `Running` select loop can produce targets
`Installing` or `Failed`. -/
lemma run_loop_cases (events : List RunEvent) (t : Transition)
    (h : Running.run_loop events = some t) :
    t = Transition.next NextState.installing ∨
      t = Transition.next (NextState.failed "process died") := by
  induction events with
  | nil => simp [Running.run_loop] at h
  | cons e rest ih =>
    cases e with
    | podChanged =>
      simp [Running.run_loop] at h
      exact Or.inl h.symm
    | timerTick still_running =>
      cases still_running with
      | true =>
        simp [Running.run_loop] at h
        exact ih h
      | false =>
        simp [Running.run_loop] at h
        exact Or.inr h.symm

/-! ## The claims -/

/-- C1. The claim states: for a pod whose containers list does not have
exactly one element, `Downloading`'s `next` produces the validation error
"Size of containers list in PodSpec has to be exactly 1", the runner
enters `Failed` carrying that message, the published status has phase
`Failed`, and the runner exits without retry. The code disagrees from the
second step on: `Downloading::get_package` does produce exactly that
validation error, but `Downloading::next` only logs it (`fail_fatal!(e)`
is commented out) and falls through to `Transition::next(self,
Installing)`; moreover `Failed::next` itself transitions to `Installing`
(a retry), and `Failed::json_status` reports phase `Pending`, not
`Failed`. This theorem evaluates the code at the failing input. -/
theorem c1_zero_containers_error_is_swallowed :
    Downloading.get_package pod_zero_containers =
      some (Except.error (StackableError.PodValidationError
        "Size of containers list in PodSpec has to be exactly 1")) ∧
    (∀ (env : Env) (ps : PodState),
      Downloading.next env ps pod_zero_containers =
        some (Transition.next NextState.installing, ps)) ∧
    (∀ (message : String) (ps : PodState),
      Failed.next message ps = (Transition.next NextState.installing, ps)) ∧
    (∀ message : String, Failed.json_status message = make_status Phase.Pending message) :=
  ⟨rfl, fun _ _ => rfl, fun _ _ => rfl, fun _ => rfl⟩

/-- C2. While the shutdown flag is set, the pod informer drops `Applied`
events, still forwards `Restarted` to `resync`, and still enqueues
`Deleted`; with the flag clear, `Applied` is enqueued normally. -/
theorem c2_informer_shutdown_filtering :
    ∀ (pod : Pod) (pods : List Pod),
      handle_pod_event true (WatchEvent.applied pod) = InformerAction.dropped ∧
      handle_pod_event true (WatchEvent.restarted pods) = InformerAction.resync pods ∧
      handle_pod_event true (WatchEvent.deleted pod) =
        InformerAction.enqueue (WatchEvent.deleted pod) ∧
      handle_pod_event false (WatchEvent.applied pod) =
        InformerAction.enqueue (WatchEvent.applied pod) ∧
      handle_pod_event false (WatchEvent.restarted pods) = InformerAction.resync pods ∧
      handle_pod_event false (WatchEvent.deleted pod) =
        InformerAction.enqueue (WatchEvent.deleted pod) :=
  fun _ _ => ⟨rfl, rfl, rfl, rfl, rfl, rfl⟩

/-- C3. When the repository lookup finds no repository for the parsed
package (or errors), `Downloading` transitions to `DownloadingBackoff`
carrying that package; `DownloadingBackoff` advances the pod state's
exponential backoff strategy by one `wait` and transitions back to
`Downloading`; neither transition in the cycle targets `Installing`. -/
theorem c3_download_backoff_cycle :
    (∀ (env : Env) (ps : PodState) (pod : Pod) (package : Package),
      Downloading.get_package pod = some (Except.ok package) →
      (env.find_repository package = Except.ok none ∨
        ∃ e, env.find_repository package = Except.error e) →
      Downloading.next env ps pod =
        some (Transition.next (NextState.downloadingBackoff package), ps)) ∧
    (∀ (package : Package) (ps : PodState),
      DownloadingBackoff.next package ps =
        (Transition.next NextState.downloading,
         { ps with package_download_backoff_strategy :=
             ps.package_download_backoff_strategy.wait.fst })) ∧
    (∀ package : Package,
      (NextState.downloadingBackoff package).tag ≠ StateTag.Installing) ∧
    NextState.downloading.tag ≠ StateTag.Installing := by
  refine ⟨?_, ?_, ?_, ?_⟩
  · intro env ps pod package hpkg hrepo
    rcases hrepo with h | ⟨e, h⟩ <;> simp [Downloading.next, hpkg, h]
  · intro package ps
    rfl
  · intro package
    simp [NextState.tag]
  · simp [NextState.tag]

/-- Witness for C3: the hypotheses hold at the concrete pod
`oci://pkg/foo:999` in an environment where no repository provides the
package, and the theorem computes the `Downloading → DownloadingBackoff`
transition there. -/
theorem c3_download_backoff_cycle_witness :
    Downloading.get_package pod_foo999 =
      some (Except.ok { product := "pkg/foo", version := "999" }) ∧
    Downloading.next env_no_repo pod_state_0 pod_foo999 =
      some (Transition.next
        (NextState.downloadingBackoff { product := "pkg/foo", version := "999" }),
        pod_state_0) :=
  ⟨rfl,
   c3_download_backoff_cycle.1 env_no_repo pod_state_0 pod_foo999
     { product := "pkg/foo", version := "999" } rfl (Or.inl rfl)⟩

/-- If a step produced `Transition::next` of a known successor value whose
tag lies in a list, then the step's target tag lies in that list. -/
lemma mem_of_next_eq {X target : NextState} {ps ps2 : PodState} (l : List StateTag)
    (h : (some (Transition.next X, ps) : Option (Transition × PodState)) =
      some (Transition.next target, ps2))
    (hX : X.tag ∈ l) : target.tag ∈ l := by
  simp only [Option.some.injEq, Prod.mk.injEq, Transition.next.injEq] at h
  obtain ⟨ht, -⟩ := h
  subst ht
  exact hX

/-- C4. Every target of a `Transition::next` produced by a state's `next`
method is in the successor set that state declared via `transition_to` at
construction time. -/
theorem c4_transition_targets_declared :
    ∀ (env : Env) (s : StateObj) (ps : PodState) (pod : Pod)
      (tr : Transition) (ps2 : PodState) (target : NextState),
      StateObj.step env s ps pod = some (tr, ps2) →
      tr = Transition.next target →
      target.tag ∈ transition_to s.tag := by
  intro env s ps pod tr ps2 target hstep htr
  subst htr
  cases s with
  | downloading =>
    simp only [StateObj.step, Downloading.next] at hstep
    repeat' split at hstep
    all_goals
      first
        | exact mem_of_next_eq _ hstep (by simp [NextState.tag, StateObj.tag, transition_to])
        | exact absurd hstep (by simp)
  | downloadingBackoff package =>
    simp only [StateObj.step, DownloadingBackoff.next] at hstep
    exact mem_of_next_eq _ hstep (by simp [NextState.tag, StateObj.tag, transition_to])
  | installing i =>
    simp only [StateObj.step, Installing.next] at hstep
    split at hstep <;>
      exact mem_of_next_eq _ hstep (by simp [NextState.tag, StateObj.tag, transition_to])
  | creatingConfig td =>
    simp only [StateObj.step, CreatingConfig.next, fail_fatal] at hstep
    split at hstep
    · exact absurd hstep (by simp)
    · exact mem_of_next_eq _ hstep (by simp [NextState.tag, StateObj.tag, transition_to])
  | running process_handle =>
    simp only [StateObj.step, Running.next] at hstep
    cases process_handle with
    | none => simp at hstep
    | some u =>
      rcases hr : Running.run_loop env.running_events with _ | t
      · rw [hr] at hstep
        simp at hstep
      · rw [hr] at hstep
        rcases run_loop_cases env.running_events t hr with h | h <;>
          rw [h] at hstep <;>
          exact mem_of_next_eq _ hstep (by simp [NextState.tag, StateObj.tag, transition_to])
  | stopped =>
    simp only [StateObj.step, Stopped.next] at hstep
    exact mem_of_next_eq _ hstep (by simp [NextState.tag, StateObj.tag, transition_to])
  | failed message =>
    simp only [StateObj.step, Failed.next] at hstep
    exact mem_of_next_eq _ hstep (by simp [NextState.tag, StateObj.tag, transition_to])
  | terminated message =>
    simp only [StateObj.step, Terminated.next] at hstep
    exact absurd hstep (by simp)

/-- Witness for C4: a concrete step of the `Stopped` state, whose target
`Starting` the theorem places in `Stopped`'s declared successors. -/
theorem c4_transition_targets_declared_witness :
    StateObj.step env_no_repo StateObj.stopped pod_state_0 pod_foo999 =
      some (Transition.next NextState.starting, pod_state_0) ∧
    NextState.starting.tag ∈ transition_to (StateObj.stopped).tag :=
  ⟨rfl,
   c4_transition_targets_declared env_no_repo StateObj.stopped pod_state_0 pod_foo999
     (Transition.next NextState.starting) pod_state_0 NextState.starting rfl rfl⟩

/-- Each access to the shutdown flag leaves it `true` once it is `true`. -/
lemma signal_step_stays_true (s : SignalStep) : signal_step true s = true := by
  cases s with
  | write w => cases w <;> rfl
  | load => rfl

/-- C5. The shutdown flag starts `false`, both store sites store `true`
(no store of `false` exists), and therefore once the flag is `true` it
stays `true` under every further sequence of accesses. -/
theorem c5_shutdown_flag_monotone :
    signal_initial = false ∧
    (∀ w : SignalWrite, w.value = true) ∧
    (∀ (steps : List SignalStep) (flag : Bool),
      flag = true → signal_run flag steps = true) := by
  refine ⟨rfl, fun w => by cases w <;> rfl, ?_⟩
  intro steps
  induction steps with
  | nil => intro flag h; exact h
  | cons s rest ih =>
    intro flag h
    subst h
    have hrun : signal_run true (s :: rest) = signal_run (signal_step true s) rest := rfl
    rw [hrun, signal_step_stays_true]
    exact ih true rfl

/-- Witness for C5: from a `true` flag, a concrete access sequence with a
load, a SIGINT store and another load leaves the flag `true`. -/
theorem c5_shutdown_flag_monotone_witness :
    signal_run true
      [SignalStep.load, SignalStep.write SignalWrite.sigint, SignalStep.load] = true :=
  c5_shutdown_flag_monotone.2.2
    [SignalStep.load, SignalStep.write SignalWrite.sigint, SignalStep.load] true rfl

/-- Did the retrieval of this CRD fail? -/
def crd_retrieval_failed (get_crd : String → Except StackableError Unit)
    (crd : String) : Bool :=
  match get_crd crd with
  | Except.error _ => true
  | Except.ok _ => false

/-- C6. `StackableProvider::new` returns `Ok` exactly when every CRD in
`CRDS` can be retrieved; otherwise it returns `Err(CrdMissing)` whose
`missing_crds` list is exactly the CRD names whose retrieval failed. -/
theorem c6_new_ok_iff_crds_present :
    ∀ get_crd : String → Except StackableError Unit,
      (StackableProvider.new get_crd = Except.ok () ↔
        ∀ crd ∈ CRDS, ∃ u, get_crd crd = Except.ok u) ∧
      check_crds get_crd = CRDS.filter (crd_retrieval_failed get_crd) ∧
      (StackableProvider.new get_crd ≠ Except.ok () →
        StackableProvider.new get_crd =
          Except.error (StackableError.CrdMissing (check_crds get_crd))) := by
  intro get_crd
  cases hx : get_crd "repositories.stable.stackable.de" with
  | ok u =>
    have hchk : check_crds get_crd = [] := by simp [check_crds, CRDS, hx]
    have hnew : StackableProvider.new get_crd = Except.ok () := by
      simp [StackableProvider.new, hchk]
    refine ⟨⟨fun _ crd hcrd => ?_, fun _ => hnew⟩, ?_, fun hne => absurd hnew hne⟩
    · simp only [CRDS, List.mem_singleton] at hcrd
      subst hcrd
      exact ⟨u, hx⟩
    · simp [hchk, CRDS, crd_retrieval_failed, hx]
  | error e =>
    have hchk : check_crds get_crd = ["repositories.stable.stackable.de"] := by
      simp [check_crds, CRDS, hx]
    have hnew : StackableProvider.new get_crd =
        Except.error (StackableError.CrdMissing ["repositories.stable.stackable.de"]) := by
      simp [StackableProvider.new, hchk]
    refine ⟨⟨fun hok => ?_, fun hall => ?_⟩, ?_, fun _ => ?_⟩
    · rw [hnew] at hok
      cases hok
    · obtain ⟨u, hu⟩ := hall "repositories.stable.stackable.de" (by simp [CRDS])
      rw [hx] at hu
      cases hu
    · simp [hchk, CRDS, crd_retrieval_failed, hx]
    · rw [hnew, hchk]

/-- Witness for C6: with every retrieval succeeding, construction returns
`Ok`, discharging the iff's hypothesis at a concrete lookup function. -/
theorem c6_new_ok_iff_crds_present_witness :
    StackableProvider.new (fun _ => Except.ok ()) = Except.ok () :=
  (c6_new_ok_iff_crds_present (fun _ => Except.ok ())).1.mpr
    (fun _ _ => ⟨(), rfl⟩)

/-- C7. The node customization hook sets the architecture to `ARCH`
(`"stackable-linux"`), appends exactly the two taints
`kubernetes.io/arch=ARCH` with effects `NoSchedule` and `NoExecute`, and
returns `Ok`. -/
theorem c7_node_arch_and_taints :
    ∀ b : Builder,
      StackableProvider.node b =
        ({ architecture := ARCH,
           taints := b.taints ++
             [{ effect := "NoSchedule", key := "kubernetes.io/arch", value := ARCH },
              { effect := "NoExecute", key := "kubernetes.io/arch", value := ARCH }] },
         Except.ok ()) ∧
      ARCH = "stackable-linux" := by
  intro b
  constructor
  · simp [StackableProvider.node, Builder.set_architecture, Builder.add_taint]
  · rfl

/-- C8. `Terminated`'s `next` always returns `Complete(Ok(()))` — never a
`Next` transition — and its `json_status` reports phase `Succeeded` with
the state's message. -/
theorem c8_terminated_is_terminal_succeeded :
    ∀ (message : String) (ps : PodState),
      Terminated.next message ps = (Transition.completeOk, ps) ∧
      Terminated.json_status message = make_status Phase.Succeeded message :=
  fun _ _ => ⟨rfl, rfl⟩

/-- C9. `Package::try_from` never returns `Err`: with a tag it returns
`Ok` with the reference's repository as product and the tag as version,
and without a tag it panics on the `unwrap` (embedded as `none`) instead
of returning a `PackageParseError`. -/
theorem c9_package_tryfrom_never_err :
    ∀ r : Reference,
      (∀ e, Package.tryFrom r ≠ some (Except.error e)) ∧
      (∀ t, r.tag = some t →
        Package.tryFrom r =
          some (Except.ok { product := r.repository, version := t })) ∧
      (r.tag = none → Package.tryFrom r = none) := by
  intro r
  rcases r with ⟨repo, tag⟩
  cases tag with
  | none =>
    refine ⟨fun e h => ?_, fun t ht => Option.noConfusion ht, fun _ => rfl⟩
    simp [Package.tryFrom] at h
  | some t =>
    refine ⟨fun e h => ?_, fun s hs => ?_, fun h => Option.noConfusion h⟩
    · simp [Package.tryFrom] at h
    · have hts : t = s := by simpa using hs
      subst hts
      rfl

/-- A reference with a tag, as in the spec's happy-path image
`oci://pkg/foo:1.0`. -/
def ref_foo : Reference := { repository := "pkg/foo", tag := some "1.0" }

/-- Witness for C9: on the tagged reference `pkg/foo:1.0` the parse
returns `Ok` with that product and version. -/
theorem c9_package_tryfrom_never_err_witness :
    Reference.tag ref_foo = some "1.0" ∧
    Package.tryFrom ref_foo =
      some (Except.ok { product := "pkg/foo", version := "1.0" }) :=
  ⟨rfl, (c9_package_tryfrom_never_err ref_foo).2.1 "1.0" rfl⟩

/-- C10. `Installing`'s `next` discards `install_package`'s result: for
every environment (already installed, install succeeding, or open/unpack
failing) it returns the transition to
`CreatingConfig { target_directory: None }`, so it never reaches its
declared `SetupFailed` successor and never returns `Complete(Err)`. -/
theorem c10_installing_always_creating_config :
    ∀ (env : Env) (s : Installing) (ps : PodState),
      Installing.next env s ps =
        (Transition.next (NextState.creatingConfig none), ps) := by
  intro env s ps
  by_cases h : Installing.package_installed env s s.package = true <;>
    simp [Installing.next, h]

end StackableKrustlet
